import Mathlib

/-!
# Verification of the prediction/model-ensemble pipeline

Shallow embedding of the forecasting core of the stock-market-prediction
application (`backend/models/`): the Simple ML predictors
(`ensemble/simple_ml_models.py`), the LSTM predictor
(`lstm/lstm_predictor.py`), the moving-average predictor
(`basic/moving_average.py`) and the model manager (`model_manager.py`).

Modelling conventions:
* Python floats are modelled as exact rationals (`ℚ`).  `NaN`/`Inf` raw
  model outputs are modelled as `Option.none`.
* Calendar dates are modelled as integers (days); `timedelta(days=k)`
  is integer addition.  `strftime` formatting is dropped: the embedded
  `date` field is the day number that the source formats.
* `np.sqrt` / `pandas.std` are modelled by `sqrtQ`, a monotone
  non-negative rational square-root approximation.  The claims below use
  only monotonicity and non-negativity of the square root, which the
  floating-point `sqrt` shares; concrete counterexamples are chosen so
  that they do not depend on the approximation error (the relevant
  variance is `0` or the margins differ by a factor that dwarfs it).
* The unembeddable external libraries (the trained sklearn / keras model
  and the pandas feature pipeline feeding it) enter as explicit
  parameters (`predRaw`, `net`, `X`, noise streams); everything after
  them — validation, fallback logic, the prediction loop, dates,
  confidence bounds, rounding, metadata, status — is embedded from the
  source line by line.
-/

namespace StockPrediction

/-- Python's `round(x, 2)` modelled on exact rationals: round to a
multiple of `1/100`.  (CPython rounds half-to-even on the binary float;
we round half-up.  The difference only matters on exact half-cent ties,
which none of the statements below depend on — every use relies only on
monotonicity and on the exactness of `round2` on multiples of `1/100`.) -/
def round2 (x : ℚ) : ℚ := (⌊x * 100 + 1/2⌋ : ℚ) / 100

/-- Python's `round(x, 3)`, same conventions as `round2`. -/
def round3 (x : ℚ) : ℚ := (⌊x * 1000 + 1/2⌋ : ℚ) / 1000

/-- Monotone non-negative stand-in for the floating-point square root:
`sqrtQ q = ⌊√(q·10⁶)⌋ / 10³` (and `0` on negative inputs, which the
source never produces). -/
def sqrtQ (q : ℚ) : ℚ := (Nat.sqrt (q * 1000000).floor.toNat : ℚ) / 1000

/-- `np.mean` / `pandas.mean` over a list (the source only applies it to
non-empty data; we return `0` on `[]`). -/
def meanQ (xs : List ℚ) : ℚ := (xs.sum) / (xs.length : ℚ)

/-- Sum of squared deviations from the mean. -/
def sqDevSum (xs : List ℚ) : ℚ := (xs.map (fun x => (x - meanQ xs) ^ 2)).sum

/-- `pandas.Series.std()` (sample standard deviation, `ddof = 1`). -/
def stdP (xs : List ℚ) : ℚ :=
  if xs.length ≤ 1 then 0 else sqrtQ (sqDevSum xs / ((xs.length : ℚ) - 1))

/-- `np.std` (population standard deviation, `ddof = 0`). -/
def stdN (xs : List ℚ) : ℚ :=
  if xs.length = 0 then 0 else sqrtQ (sqDevSum xs / (xs.length : ℚ))

/-- `pandas.Series.tail(n)` / `np.ndarray[-n:]`: the last `n` elements. -/
def takeLast (n : ℕ) (xs : List α) : List α := xs.drop (xs.length - n)

/-- `np.diff`: successive differences. -/
def diffs : List ℚ → List ℚ
  | [] => []
  | [_] => []
  | x :: y :: rest => (y - x) :: diffs (y :: rest)

theorem round2_mono {a b : ℚ} (h : a ≤ b) : round2 a ≤ round2 b := by
  unfold round2
  have : a * 100 + 1/2 ≤ b * 100 + 1/2 := by nlinarith
  have := Int.floor_mono this
  have : ((⌊a * 100 + 1/2⌋ : ℚ)) ≤ ((⌊b * 100 + 1/2⌋ : ℚ)) := by exact_mod_cast this
  linarith

theorem round3_mono {a b : ℚ} (h : a ≤ b) : round3 a ≤ round3 b := by
  unfold round3
  have : a * 1000 + 1/2 ≤ b * 1000 + 1/2 := by nlinarith
  have := Int.floor_mono this
  have : ((⌊a * 1000 + 1/2⌋ : ℚ)) ≤ ((⌊b * 1000 + 1/2⌋ : ℚ)) := by exact_mod_cast this
  linarith

theorem round2_zero : round2 0 = 0 := by
  unfold round2
  norm_num

theorem round2_nonneg {a : ℚ} (h : 0 ≤ a) : 0 ≤ round2 a := by
  have := round2_mono h
  rwa [round2_zero] at this

theorem sqrtQ_nonneg (q : ℚ) : 0 ≤ sqrtQ q := by
  unfold sqrtQ
  positivity

theorem sqrtQ_mono {a b : ℚ} (h : a ≤ b) : sqrtQ a ≤ sqrtQ b := by
  unfold sqrtQ
  have h1 : a * 1000000 ≤ b * 1000000 := by nlinarith
  have h2 := Int.floor_mono h1
  have h3 : (a * 1000000).floor.toNat ≤ (b * 1000000).floor.toNat :=
    Int.toNat_le_toNat h2
  have h4 : Nat.sqrt (a * 1000000).floor.toNat ≤ Nat.sqrt (b * 1000000).floor.toNat :=
    Nat.sqrt_le_sqrt h3
  have h5 : (Nat.sqrt (a * 1000000).floor.toNat : ℚ) ≤
      (Nat.sqrt (b * 1000000).floor.toNat : ℚ) := by exact_mod_cast h4
  linarith

theorem stdP_nonneg (xs : List ℚ) : 0 ≤ stdP xs := by
  unfold stdP
  split
  · exact le_refl 0
  · exact sqrtQ_nonneg _

/-! ## Data model

Input rows carry the fields the embedded code paths read: the calendar
`date` (as an integer day number) and the `close` price.  The remaining
OHLCV fields are consumed only by the abstracted pandas feature
pipeline. -/

/-- One historical data row: `(date, close)`. -/
abbrev Row := Int × ℚ

/-- `df.sort_values('date')`: insertion sort by date (the data model
forbids duplicate dates, so stability is irrelevant). -/
def insertRow (r : Row) : List Row → List Row
  | [] => [r]
  | s :: rest => if r.1 ≤ s.1 then r :: s :: rest else s :: insertRow r rest

def sortByDate : List Row → List Row
  | [] => []
  | r :: rest => insertRow r (sortByDate rest)

/-- `closes df`: the close-price column after the date sort. -/
def closesOf (input : List Row) : List ℚ := (sortByDate input).map Prod.snd

/-- `df['date'].iloc[-1]` after the date sort. -/
def lastDateOf (input : List Row) : Int := ((sortByDate input).map Prod.fst).getLastD 0

/-- `status` field of a result dictionary. -/
inductive Status
  | completed
  | failed
deriving DecidableEq, Repr

/-- One entry of the `predictions` list (the source formats `date` with
`strftime`; we keep the day number being formatted). -/
structure PredictionPoint where
  date : Int
  predicted_price : ℚ
  lower_bound : ℚ
  upper_bound : ℚ
  confidence : ℚ
deriving DecidableEq, Repr

/-- The metadata fields the claims touch.  `accuracy_score := none`
models a metadata dictionary without an `accuracy_score` key. -/
structure Metadata where
  accuracy_score : Option ℚ := none
  fallback_mode : Bool := false
  error : Option String := none
deriving DecidableEq, Repr

/-- The result dictionary returned by every `predict`. -/
structure ModelResult where
  symbol : String
  model : String
  predictions : List PredictionPoint
  metadata : Metadata
  status : Status
deriving DecidableEq, Repr

/-- The failed-status result that each predictor's `except` clause (and
the manager) builds. -/
def failedResult (symbol model msg : String) : ModelResult :=
  { symbol := symbol, model := model, predictions := [],
    metadata := { error := some msg }, status := .failed }

/-- Shape shared by every point appended to `predictions`:
`predicted_price = round(p, 2)`, `lower_bound = round(max(0, p - m), 2)`,
`upper_bound = round(p + m, 2)`. -/
def mkPoint (d : Int) (p m conf : ℚ) : PredictionPoint :=
  { date := d, predicted_price := round2 p,
    lower_bound := round2 (max 0 (p - m)),
    upper_bound := round2 (p + m), confidence := conf }

/-! ## StandardScaler (`sklearn.preprocessing.StandardScaler`)

`fit` stores the per-column mean and the per-column scale
(`sqrt` of the `ddof = 0` variance, with zero variance mapped to scale
`1` exactly as sklearn's `_handle_zeros_in_scale` does);
`transform` applies `(x - mean) / scale`. -/

structure ScalerFit where
  mean : List ℚ
  scale : List ℚ
deriving DecidableEq, Repr

def column (X : List (List ℚ)) (j : ℕ) : List ℚ := X.map (fun row => row.getD j 0)

def scalerScale (col : List ℚ) : ℚ :=
  let v := sqDevSum col / (col.length : ℚ)
  if v = 0 then 1 else sqrtQ v

def fitScaler (X : List (List ℚ)) : ScalerFit :=
  let nFeat := (X.headD []).length
  { mean := (List.range nFeat).map (fun j => meanQ (column X j)),
    scale := (List.range nFeat).map (fun j => scalerScale (column X j)) }

def transformRow (f : ScalerFit) (row : List ℚ) : List ℚ :=
  (List.range f.mean.length).map
    (fun j => (row.getD j 0 - f.mean.getD j 0) / f.scale.getD j 1)

/-! ## SimpleMLPredictor (`ensemble/simple_ml_models.py`)

`predict` (lines 102–209).  The pandas feature pipeline
(`_create_simple_features` / `_prepare_training_data`) and the trained
sklearn regressor are external to the embedding and enter as
parameters: `X` is the feature matrix `_prepare_training_data` returns,
`lastFeatures` is `df_features[available_features].iloc[-1]`, `predRaw`
is `model.predict(last_features_scaled)[0]` (`none` models `NaN`/`Inf`),
and `r2` is the `r2_score` computed on the last ten training rows.
`Ridge(alpha=1.0, random_state=42)`, `RandomForestRegressor(...,
random_state=42)` and `XGBRegressor(..., random_state=42)` are all
deterministic functions of the scaled training data, so for fixed input
these parameters are fixed. -/

structure SimpleMLParams where
  X : List (List ℚ)
  lastFeatures : List ℚ
  predRaw : Option ℚ
  r2 : ℚ

/-- The feature vector handed to `model.predict` at loop step `i`
(line 152).  `last_features_scaled` is computed once before the loop
(lines 145–146) and never reassigned inside it, so the vector is the
same at every step — the index is unused. -/
def simpleMLStepInput (p : SimpleMLParams) (_i : ℕ) : List ℚ :=
  transformRow (fitScaler p.X) p.lastFeatures

/-- Lines 156–158: invalid-prediction fallback
`current_price + mean(np.diff(close.tail(5))) * (i + 1)`. -/
def simpleMLFallbackPrice (closes : List ℚ) (i : ℕ) : ℚ :=
  let recentTrend := meanQ (diffs (takeLast 5 closes))
  let currentPrice := closes.getLastD 0
  currentPrice + recentTrend * ((i : ℚ) + 1)

/-- Lines 152–158: the per-day predicted price before rounding.
`predRaw = none` models `np.isnan`/`np.isinf`; `p ≤ 0` is the
third disjunct of the validity check. -/
def simpleMLPredPrice (closes : List ℚ) (predRaw : Option ℚ) (i : ℕ) : ℚ :=
  match predRaw with
  | none => simpleMLFallbackPrice closes i
  | some p => if p ≤ 0 then simpleMLFallbackPrice closes i else p

/-- Lines 163–164: `close.tail(20).std() * 1.96 * np.sqrt(i + 1)`. -/
def simpleMLMargin (closes : List ℚ) (i : ℕ) : ℚ :=
  stdP (takeLast 20 closes) * (196/100) * sqrtQ ((i : ℚ) + 1)

/-- The `predictions` list built by the loop at lines 150–172. -/
def simpleMLPoints (lastDate : Int) (closes : List ℚ) (predRaw : Option ℚ)
    (days : ℕ) (conf : ℚ) : List PredictionPoint :=
  (List.range days).map (fun (i : ℕ) =>
    mkPoint (lastDate + (((i + 1 : ℕ) : Int))) (simpleMLPredPrice closes predRaw i)
      (simpleMLMargin closes i) conf)

/-- Lines 175–181: `max(0.5, min(0.95, r2 if r2 > 0 else 0.5))` when
there are more than ten training samples, else `0.75`. -/
def simpleMLAccuracy (nSamples : ℕ) (r2 : ℚ) : ℚ :=
  if 10 < nSamples then max (1/2) (min (19/20) (if 0 < r2 then r2 else 1/2)) else 3/4

/-- `SimpleMLPredictor.predict`, threading the one piece of instance
state the method touches (`self.scaler`; `none` = never fitted).  When
`len(X) == 0` the raised `ValueError` is caught by the method's own
`except` (lines 200–209), which returns a failed result; the scaler is
not yet fitted at that point. -/
def simpleMLPredict (modelName symbol : String) (state : Option ScalerFit)
    (p : SimpleMLParams) (input : List Row) (days : ℕ) (conf : ℚ) :
    Option ScalerFit × ModelResult :=
  if p.X.isEmpty then
    (state, failedResult symbol modelName "Not enough data for training")
  else
    (some (fitScaler p.X),
     { symbol := symbol, model := modelName,
       predictions := simpleMLPoints (lastDateOf input) (closesOf input) p.predRaw days conf,
       metadata := { accuracy_score := some (round3 (simpleMLAccuracy p.X.length p.r2)) },
       status := .completed })

/-! ## LSTMPredictor (`lstm/lstm_predictor.py`)

`predict` (lines 99–272) with the constructor defaults used by the
manager: `sequence_length = 60`, so the data minimum is
`sequence_length + 30 = 90`.  The keras network is external and enters
as the parameter `net : List ℚ → ℚ` (the trained model applied to a
scaled input sequence); `np.random.normal` draws in the fallback enter
as the stream `noise`; `rawScore` is `1 - mae / mean` from lines
236–241. -/

/-- `MinMaxScaler.fit` on the close column: stores
`(data_min_, data_max_)`. -/
def minMaxOf (closes : List ℚ) : ℚ × ℚ :=
  (closes.foldr min (closes.headD 0), closes.foldr max (closes.headD 0))

/-- sklearn maps a zero data range to a unit scale
(`_handle_zeros_in_scale`). -/
def mmRange (mm : ℚ × ℚ) : ℚ := if mm.2 - mm.1 = 0 then 1 else mm.2 - mm.1

/-- `MinMaxScaler.transform` with `feature_range = (0, 1)`. -/
def scaleMinMax (mm : ℚ × ℚ) (c : ℚ) : ℚ := (c - mm.1) / mmRange mm

/-- `MinMaxScaler.inverse_transform`. -/
def invScaleMinMax (mm : ℚ × ℚ) (s : ℚ) : ℚ := s * mmRange mm + mm.1

/-- `np.polyfit(range(n), ys, 1)[0]`: the least-squares slope. -/
def polyfit1Slope (ys : List ℚ) : ℚ :=
  let n := ys.length
  let xbar := meanQ ((List.range n).map (fun (k : ℕ) => (k : ℚ)))
  let ybar := meanQ ys
  let num := ((List.range n).map (fun (k : ℕ) => ((k : ℚ) - xbar) * (ys.getD k 0 - ybar))).sum
  let den := ((List.range n).map (fun (k : ℕ) => ((k : ℚ) - xbar) ^ 2)).sum
  if den = 0 then 0 else num / den

/-- `_fallback_linear_prediction` (lines 77–97): linear trend over the
last 30 closes plus a noise draw, floored at 0.  `noise i` stands for
the draw `np.random.normal(0, np.std(recent_prices) * 0.02)` at loop
index `i` (price for day `i + 1`). -/
def lstmFallbackPrices (closes : List ℚ) (days : ℕ) (noise : ℕ → ℚ) : List ℚ :=
  let recent := takeLast 30 closes
  let trend := polyfit1Slope recent
  let lastPrice := recent.getLastD 0
  (List.range days).map (fun (i : ℕ) => max 0 (lastPrice + trend * ((i : ℚ) + 1) + noise i))

/-- Line 135: `max(close.tail(30).std() * 1.96, pred_price * 0.03)`. -/
def lstmFallbackMargin (closes : List ℚ) (price : ℚ) : ℚ :=
  max (stdP (takeLast 30 closes) * (196/100)) (price * (3/100))

/-- The fallback branch of `predict` (lines 127–159).  Its metadata
(lines 149–156) has no `accuracy_score` key. -/
def lstmFallbackResult (symbol : String) (input : List Row) (days : ℕ)
    (conf : ℚ) (noise : ℕ → ℚ) : ModelResult :=
  let closes := closesOf input
  let prices := lstmFallbackPrices closes days noise
  { symbol := symbol, model := "LSTM (Fallback)",
    predictions := (List.range days).map (fun (i : ℕ) =>
      mkPoint (lastDateOf input + ((i + 1 : ℕ) : Int)) (prices.getD i 0)
        (lstmFallbackMargin closes (prices.getD i 0)) conf),
    metadata := { fallback_mode := true },
    status := .completed }

/-- The recursive sequence of lines 205–219: `lstmSeq net s0 i` is
`current_sequence` at the start of loop step `i`.  Each step predicts
`net s`, then `np.roll(current_sequence, -1)` followed by
`current_sequence[-1] = pred_scaled` drops the oldest entry and appends
the scaled prediction. -/
def lstmSeq (net : List ℚ → ℚ) (s0 : List ℚ) : ℕ → List ℚ
  | 0 => s0
  | i + 1 =>
    let s := lstmSeq net s0 i
    s.drop 1 ++ [net s]

/-- The unrounded predicted price at loop step `i` (lines 212–215):
the network output on the current sequence, inverse-transformed. -/
def lstmNativePrice (mm : ℚ × ℚ) (net : List ℚ → ℚ) (s0 : List ℚ) (i : ℕ) : ℚ :=
  invScaleMinMax mm (net (lstmSeq net s0 i))

/-- Lines 222–224:
`max(close.tail(30).std() * 1.96 * np.sqrt((i + 1) / 30), pred_price * 0.025)`. -/
def lstmNativeMargin (closes : List ℚ) (price : ℚ) (i : ℕ) : ℚ :=
  max (stdP (takeLast 30 closes) * (196/100) * sqrtQ (((i : ℚ) + 1) / 30)) (price * (25/1000))

/-- The scaled input window at the start of step 0 of the prediction
loop: `scaled_data[-self.sequence_length:]` (line 205).  `scaled_data`
is produced by the fresh `self.scaler.fit_transform` of line 163,
before the load-or-train step, so the window is always scaled with the
call's own input min/max — even when a pickled scaler is loaded
afterwards. -/
def lstmSeq0 (input : List Row) : List ℚ :=
  takeLast 60 ((closesOf input).map (scaleMinMax (minMaxOf (closesOf input))))

/-- Lines 236–243: `1 - mae/mean` clamped to `[0.6, 0.95]` when there
are training samples (with 90 or more rows there always are), else
`0.85`. -/
def lstmNativeAccuracy (nSamples : ℕ) (rawScore : ℚ) : ℚ :=
  if 0 < nSamples then max (3/5) (min (19/20) rawScore) else 17/20

/-- Instance state of the `LSTMPredictor` held by the manager:
`self.scaler`'s fit (`none` = never fitted) and whether `self.model`
has been assigned. -/
structure LSTMState where
  scalerFit : Option (ℚ × ℚ)
  modelTrained : Bool
deriving DecidableEq, Repr

/-- A saved model/scaler file pair (`{symbol}_lstm_model.h5` and
`{symbol}_scaler.pkl`, lines 170–171): the pickled MinMax fit and the
persisted network. -/
structure SavedModel where
  scalerFit : ℚ × ℚ
  net : List ℚ → ℚ

/-- The `saved_models` directory, keyed by symbol: the cross-request
persisted state that `predict` reads (lines 175–179) and writes
(lines 198–201). -/
def ModelStore := String → Option SavedModel

/-- The scaler/network pair the prediction loop actually uses
(`self.scaler` / `self.model` after the load-or-train step of lines
175–201): the pickled pair when saved files exist for the symbol, else
the freshly fit scaler and the newly trained network. -/
def lstmUsedPair (store : ModelStore) (symbol : String) (input : List Row)
    (net : List ℚ → ℚ) : (ℚ × ℚ) × (List ℚ → ℚ) :=
  match store symbol with
  | some saved => (saved.scalerFit, saved.net)
  | none => (minMaxOf (closesOf input), net)

/-- The store after the load-or-train step: a fresh training run saves
its model and scaler under the symbol (lines 198–201); a load leaves
the store unchanged. -/
def lstmStoreAfter (store : ModelStore) (symbol : String) (input : List Row)
    (net : List ℚ → ℚ) : ModelStore :=
  match store symbol with
  | some _ => store
  | none => fun s => if s = symbol then some ⟨minMaxOf (closesOf input), net⟩ else store s

/-- The unrounded predicted price for day `i + 1` of a native-mode
`predict` call: the used network's output on the recursively updated
window (built from the freshly scaled data), inverse-transformed with
the used scaler (line 215 applies `self.scaler`, which after a load is
the pickled one). -/
def lstmNativePriceOf (store : ModelStore) (symbol : String) (input : List Row)
    (net : List ℚ → ℚ) (i : ℕ) : ℚ :=
  lstmNativePrice (lstmUsedPair store symbol input net).1
    (lstmUsedPair store symbol input net).2 (lstmSeq0 input) i

/-- The confidence margin for day `i + 1` of a native-mode `predict`
call. -/
def lstmNativeMarginOf (store : ModelStore) (symbol : String) (input : List Row)
    (net : List ℚ → ℚ) (i : ℕ) : ℚ :=
  lstmNativeMargin (closesOf input) (lstmNativePriceOf store symbol input net i) i

/-- The completed result built by the native branch (lines 203–261). -/
def lstmNativeResult (store : ModelStore) (symbol : String) (input : List Row)
    (days : ℕ) (conf : ℚ) (net : List ℚ → ℚ) (rawScore : ℚ) : ModelResult :=
  let acc := some (round3 (lstmNativeAccuracy ((closesOf input).length - 60) rawScore))
  { symbol := symbol, model := "LSTM",
    predictions := (List.range days).map (fun (i : ℕ) =>
      mkPoint (lastDateOf input + ((i + 1 : ℕ) : Int))
        (lstmNativePriceOf store symbol input net i)
        (lstmNativeMarginOf store symbol input net i) conf),
    metadata := { accuracy_score := acc },
    status := .completed }

/-- `LSTMPredictor.predict`.  The insufficient-data `ValueError` of
lines 119–120 is caught by the method's own `except` (lines 263–272),
which returns a failed result — it does not escape `predict`.  The
native branch refits `self.scaler` on the input closes (line 163),
then either loads the pickled scaler and model saved for the symbol by
an earlier call (lines 175–179) or trains a fresh network and persists
both (lines 180–201); afterwards `self.scaler` holds the used pair's
fit and `self.model` is assigned.  The first component of the returned
pair is the (instance state, store) pair after the call. -/
def lstmPredict (symbol : String) (tensorflowAvailable : Bool) (state : LSTMState)
    (store : ModelStore) (net : List ℚ → ℚ) (rawScore : ℚ) (noise : ℕ → ℚ)
    (input : List Row) (days : ℕ) (conf : ℚ) :
    (LSTMState × ModelStore) × ModelResult :=
  if input.length < 60 + 30 then
    ((state, store), failedResult symbol "LSTM" "Need at least 90 days of historical data")
  else if tensorflowAvailable = false then
    ((state, store), lstmFallbackResult symbol input days conf noise)
  else
    ((⟨some (lstmUsedPair store symbol input net).1, true⟩,
      lstmStoreAfter store symbol input net),
     lstmNativeResult store symbol input days conf net rawScore)

/-- The empty saved-models directory (no files on disk yet). -/
def emptyStore : ModelStore := fun _ => none

theorem lstmUsedPair_none (store : ModelStore) (symbol : String) (input : List Row)
    (net : List ℚ → ℚ) (h : store symbol = none) :
    lstmUsedPair store symbol input net = (minMaxOf (closesOf input), net) := by
  unfold lstmUsedPair
  simp only [h]

theorem lstmUsedPair_some (store : ModelStore) (symbol : String) (input : List Row)
    (net : List ℚ → ℚ) (saved : SavedModel) (h : store symbol = some saved) :
    lstmUsedPair store symbol input net = (saved.scalerFit, saved.net) := by
  unfold lstmUsedPair
  simp only [h]

theorem lstmUsedPair_congr (store store' : ModelStore) (symbol : String)
    (input : List Row) (net : List ℚ → ℚ) (h : store symbol = store' symbol) :
    lstmUsedPair store symbol input net = lstmUsedPair store' symbol input net := by
  unfold lstmUsedPair
  rw [h]

theorem lstmStoreAfter_none (store : ModelStore) (symbol : String) (input : List Row)
    (net : List ℚ → ℚ) (h : store symbol = none) :
    lstmStoreAfter store symbol input net =
      fun s => if s = symbol then some ⟨minMaxOf (closesOf input), net⟩ else store s := by
  unfold lstmStoreAfter
  simp only [h]

theorem lstmStoreAfter_some (store : ModelStore) (symbol : String) (input : List Row)
    (net : List ℚ → ℚ) (saved : SavedModel) (h : store symbol = some saved) :
    lstmStoreAfter store symbol input net = store := by
  unfold lstmStoreAfter
  simp only [h]

theorem lstmNativeResult_congr (store store' : ModelStore) (symbol : String)
    (input : List Row) (days : ℕ) (conf : ℚ) (net : List ℚ → ℚ) (rs : ℚ)
    (h : store symbol = store' symbol) :
    lstmNativeResult store symbol input days conf net rs =
      lstmNativeResult store' symbol input days conf net rs := by
  unfold lstmNativeResult lstmNativeMarginOf lstmNativePriceOf
  rw [lstmUsedPair_congr store store' symbol input net h]

/-- `LSTMPredictor.backtest`, lines 274–384: the data-validation
behaviour.  When `len(historical_data) < sequence_length + test_days +
30` the raised `ValueError` is caught by the method's own `except`
(lines 377–384), which returns a failed result.  The remainder of the
method (training and scoring, which no claim below touches) enters as
the parameter `rest`. -/
def lstmBacktest (symbol : String) (state : LSTMState) (input : List Row)
    (testDays : ℕ) (rest : LSTMState × ModelResult) : LSTMState × ModelResult :=
  if input.length < 60 + testDays + 30 then
    (state, failedResult symbol "LSTM"
      ("Need at least " ++ toString (60 + testDays + 30) ++ " days for backtesting"))
  else rest

/-! ## MovingAveragePredictor (`basic/moving_average.py`)

`predict` (lines 21–128) with the constructor defaults
`short_window = 10`, `long_window = 30`.  Two pieces are irreducibly
floating/real and enter as parameters: `powF`, standing for the real
power `trend_factor ** (i / 30)`, and `noise i`, standing for the draw
`np.random.normal(0, volatility) * 0.5` at day `i + 1`. -/

/-- `Series.rolling(window=w).mean()`: `none` models the leading `NaN`s. -/
def maRollingMean (w : ℕ) (xs : List ℚ) : List (Option ℚ) :=
  (List.range xs.length).map (fun (i : ℕ) =>
    if i + 1 < w then none else some (meanQ ((xs.take (i + 1)).drop (i + 1 - w))))

/-- `col.iloc[-5:].mean()`: pandas `mean` skips `NaN` entries. -/
def maTail5Mean (col : List (Option ℚ)) : ℚ :=
  meanQ ((takeLast 5 col).filterMap id)

/-- Lines 54–66: the trend factor from the short/long MA crossover. -/
def maTrendFactor (closes : List ℚ) : ℚ :=
  let sMA := maTail5Mean (maRollingMean 10 closes)
  let lMA := maTail5Mean (maRollingMean 30 closes)
  if lMA < sMA then 102/100 else if sMA < lMA then 98/100 else 1

/-- `Series.diff()` on an optional column (`NaN` at the head and across
`NaN` neighbours). -/
def maDiffCol (col : List (Option ℚ)) : List (Option ℚ) :=
  (List.range col.length).map (fun (i : ℕ) =>
    match i with
    | 0 => none
    | j + 1 =>
      match col.getD (j + 1) none, col.getD j none with
      | some a, some b => some (a - b)
      | _, _ => none)

/-- `_calculate_mock_accuracy` (lines 130–146): fraction of days where
the short-MA move and the price move have the same sign, clipped to
`[0.6, 0.9]` (`NaN` comparisons are `False` in pandas). -/
def maMockAccuracy (closes : List ℚ) : ℚ :=
  if closes.length < 20 then 3/4
  else
    let sDiff := maDiffCol (maRollingMean 10 closes)
    let pDiff := maDiffCol ((maRollingMean 1 closes))
    let up := fun (o : Option ℚ) => o.elim false (fun v => 0 < v)
    let dn := fun (o : Option ℚ) => o.elim false (fun v => v < 0)
    let correct := ((List.range closes.length).filter (fun (i : ℕ) =>
      (up (sDiff.getD i none) && up (pDiff.getD i none)) ||
      (dn (sDiff.getD i none) && dn (pDiff.getD i none)))).length
    let total := closes.length - 1
    if total = 0 then 3/4
    else round3 (max (3/5) (min (9/10) ((correct : ℚ) / (total : ℚ))))

/-- `MovingAveragePredictor.predict`.  The insufficient-data
`ValueError` of lines 41–42 is caught by the method's own `except`
(lines 119–128), which returns a failed result. -/
def maPredict (symbol : String) (input : List Row) (days : ℕ) (conf : ℚ)
    (powF : ℚ → ℚ → ℚ) (noise : ℕ → ℚ) : ModelResult :=
  if input.length < 30 then
    failedResult symbol "Moving Average" "Need at least 30 days of historical data"
  else
    let closes := closesOf input
    let recent := takeLast 10 closes
    let recentPrice := recent.getLastD 0
    let vol := stdN recent / meanQ recent
    let tf := maTrendFactor closes
    { symbol := symbol, model := "Moving Average",
      predictions := (List.range days).map (fun (i : ℕ) =>
        let price := recentPrice * powF tf (((i : ℚ) + 1) / 30) * (1 + noise i)
        mkPoint (lastDateOf input + ((i + 1 : ℕ) : Int)) price
          (vol * recentPrice * (196/100) * sqrtQ (((i : ℚ) + 1) / 30)) conf),
      metadata := { accuracy_score := some (maMockAccuracy closes) },
      status := .completed }

/-! ## ModelManager (`model_manager.py`)

The registry is a dictionary from model-name strings to predictor
instances; a claim-relevant predictor instance is, for the manager's
purposes, its `predict` entry point, modelled as a function that either
returns a result or raises (`Except.error`). -/

/-- A registered predictor's `predict`: symbol, historical data,
prediction days, confidence level. -/
def PredFn := String → List Row → ℕ → ℚ → Except String ModelResult

/-- `ModelManager.__init__` (lines 24–30): the four fixed registry
entries, one predictor instance each, created once at construction. -/
def mkModelManager (fLSTM fLR fRF fXGB : PredFn) : List (String × PredFn) :=
  [("LSTM", fLSTM), ("Linear Regression", fLR),
   ("Random Forest", fRF), ("XGBoost", fXGB)]

/-- `ModelManager.get_available_models` (lines 182–184). -/
def getAvailableModels (models : List (String × PredFn)) : List String :=
  models.map Prod.fst

/-- `ModelManager.get_single_prediction` (lines 33–70): unknown names
yield a structured failure carrying `"Model {name} not available"`; an
exception raised by the model's `predict` is caught and converted into
a failed result. -/
def getSinglePrediction (models : List (String × PredFn)) (name symbol : String)
    (input : List Row) (days : ℕ) (conf : ℚ) : ModelResult :=
  match models.lookup name with
  | none => failedResult symbol name ("Model " ++ name ++ " not available")
  | some f =>
    match f symbol input days conf with
    | .ok r => r
    | .error e => failedResult symbol name e

/-- `ModelManager.get_all_predictions` (lines 72–110): one
`get_single_prediction` per registered name, collected keyed by name. -/
def getAllPredictions (models : List (String × PredFn)) (symbol : String)
    (input : List Row) (days : ℕ) (conf : ℚ) : List (String × ModelResult) :=
  models.map (fun e => (e.1, getSinglePrediction models e.1 symbol input days conf))

/-! ## Shared lemmas -/

/-- Default point used with `List.getD` when indexing `predictions`. -/
def defaultPoint : PredictionPoint := ⟨0, 0, 0, 0, 0⟩

theorem getD_map_range {α : Type} (f : ℕ → α) (d : α) (i days : ℕ) (h : i < days) :
    (((List.range days).map f).getD i d) = f i := by
  rw [List.getD_eq_getElem?_getD]
  simp [List.getElem?_map, List.getElem?_range h]

theorem sqrtQ_zero : sqrtQ 0 = 0 := by
  unfold sqrtQ
  norm_num
  decide

@[simp] theorem mkPoint_date (d : Int) (p m c : ℚ) : (mkPoint d p m c).date = d := rfl

@[simp] theorem mkPoint_pred (d : Int) (p m c : ℚ) :
    (mkPoint d p m c).predicted_price = round2 p := rfl

@[simp] theorem mkPoint_lower (d : Int) (p m c : ℚ) :
    (mkPoint d p m c).lower_bound = round2 (max 0 (p - m)) := rfl

@[simp] theorem mkPoint_upper (d : Int) (p m c : ℚ) :
    (mkPoint d p m c).upper_bound = round2 (p + m) := rfl

/-- Bound structure of every emitted point: with a non-negative margin,
the lower bound is non-negative, the price never exceeds the upper
bound, and whenever the unrounded price is non-negative the usual
ordering `0 ≤ lower ≤ predicted` holds as well. -/
theorem mkPoint_bounds (d : Int) (p m c : ℚ) (hm : 0 ≤ m) :
    0 ≤ (mkPoint d p m c).lower_bound ∧
    (mkPoint d p m c).predicted_price ≤ (mkPoint d p m c).upper_bound ∧
    (0 ≤ p → 0 ≤ (mkPoint d p m c).predicted_price ∧
      (mkPoint d p m c).lower_bound ≤ (mkPoint d p m c).predicted_price) := by
  refine ⟨?_, ?_, ?_⟩
  · exact round2_nonneg (le_max_left _ _)
  · exact round2_mono (by linarith)
  · intro hp
    refine ⟨round2_nonneg hp, round2_mono ?_⟩
    exact max_le hp (by linarith)

theorem simpleMLMargin_nonneg (closes : List ℚ) (i : ℕ) : 0 ≤ simpleMLMargin closes i := by
  unfold simpleMLMargin
  have h1 := stdP_nonneg (takeLast 20 closes)
  have h2 := sqrtQ_nonneg ((i : ℚ) + 1)
  positivity

/-- The length / date shape of a completed `predictions` list: exactly
`days` points, the `i`-th dated `i + 1` calendar days after the last
historical date (hence strictly increasing by one day, the first one
day after the last historical date). -/
def predictionDatesOk (r : ModelResult) (input : List Row) (days : ℕ) : Prop :=
  r.predictions.length = days ∧
  r.predictions.map PredictionPoint.date =
    (List.range days).map (fun (i : ℕ) => lastDateOf input + ((i + 1 : ℕ) : Int))

theorem simpleML_datesOk (mn sym : String) (st : Option ScalerFit) (p : SimpleMLParams)
    (input : List Row) (days : ℕ) (conf : ℚ)
    (h : (simpleMLPredict mn sym st p input days conf).2.status = .completed) :
    predictionDatesOk (simpleMLPredict mn sym st p input days conf).2 input days := by
  unfold simpleMLPredict at h ⊢
  by_cases hX : p.X.isEmpty
  · simp [hX, failedResult] at h
  · simp only [hX, if_false, Bool.false_eq_true]
    constructor
    · simp [simpleMLPoints]
    · simp [simpleMLPoints, List.map_map]

theorem lstm_datesOk (sym : String) (tf : Bool) (st : LSTMState) (store : ModelStore)
    (net : List ℚ → ℚ) (rs : ℚ) (noise : ℕ → ℚ) (input : List Row) (days : ℕ) (conf : ℚ)
    (h : (lstmPredict sym tf st store net rs noise input days conf).2.status = .completed) :
    predictionDatesOk (lstmPredict sym tf st store net rs noise input days conf).2 input days := by
  unfold lstmPredict at h ⊢
  by_cases hlen : input.length < 60 + 30
  · simp [hlen, failedResult] at h
  · by_cases htf : tf = false
    · simp only [hlen, if_false, htf, if_true]
      unfold lstmFallbackResult
      constructor
      · simp
      · simp [List.map_map]
    · simp only [hlen, if_false, htf]
      simp only [lstmNativeResult]
      constructor
      · simp
      · simp [List.map_map]

theorem ma_datesOk (sym : String) (input : List Row) (days : ℕ) (conf : ℚ)
    (powF : ℚ → ℚ → ℚ) (noise : ℕ → ℚ)
    (h : (maPredict sym input days conf powF noise).status = .completed) :
    predictionDatesOk (maPredict sym input days conf powF noise) input days := by
  unfold maPredict at h ⊢
  by_cases hlen : input.length < 30
  · simp [hlen, failedResult] at h
  · simp only [hlen, if_false]
    constructor
    · simp
    · simp [List.map_map]

/-! ### Concrete-input machinery

Test inputs are built with `datedFrom`, which dates a close series on
consecutive days; such inputs are already date-sorted, so the pandas
sort leaves them unchanged. -/

/-- Rows dated consecutively from day `d` carrying the given closes. -/
def datedFrom (d : Int) : List ℚ → List Row
  | [] => []
  | c :: rest => (d, c) :: datedFrom (d + 1) rest

theorem datedFrom_map_snd (d : Int) (cs : List ℚ) : (datedFrom d cs).map Prod.snd = cs := by
  induction cs generalizing d with
  | nil => rfl
  | cons c rest ih => simp [datedFrom, ih]

theorem mem_datedFrom_le (d : Int) (cs : List ℚ) (b : Row) (hb : b ∈ datedFrom d cs) :
    d ≤ b.1 := by
  induction cs generalizing d with
  | nil => simp [datedFrom] at hb
  | cons c rest ih =>
    rcases List.mem_cons.1 hb with h | h
    · rw [h]
    · have := ih (d + 1) h
      omega

theorem datedFrom_chain (d : Int) (cs : List ℚ) :
    (datedFrom d cs).Pairwise (fun a b => a.1 ≤ b.1) := by
  induction cs generalizing d with
  | nil => exact List.Pairwise.nil
  | cons c rest ih =>
    refine List.pairwise_cons.2 ⟨?_, ih (d + 1)⟩
    intro b hb
    have := mem_datedFrom_le (d + 1) rest b hb
    omega

theorem insertRow_of_le (r : Row) (l : List Row) (h : ∀ b ∈ l, r.1 ≤ b.1) :
    insertRow r l = r :: l := by
  cases l with
  | nil => rfl
  | cons s rest =>
    unfold insertRow
    rw [if_pos (h s (List.mem_cons_self s rest))]

theorem sortByDate_eq_self (l : List Row) (h : l.Pairwise (fun a b => a.1 ≤ b.1)) :
    sortByDate l = l := by
  induction l with
  | nil => rfl
  | cons r rest ih =>
    have hc := List.pairwise_cons.1 h
    rw [sortByDate, ih hc.2, insertRow_of_le r rest hc.1]

theorem closesOf_datedFrom (d : Int) (cs : List ℚ) : closesOf (datedFrom d cs) = cs := by
  unfold closesOf
  rw [sortByDate_eq_self _ (datedFrom_chain d cs), datedFrom_map_snd]

theorem length_datedFrom (d : Int) (cs : List ℚ) : (datedFrom d cs).length = cs.length := by
  induction cs generalizing d with
  | nil => rfl
  | cons c rest ih => simp [datedFrom, ih]

theorem getLastD_replicate (a d : ℚ) (n : ℕ) (h : 0 < n) :
    (List.replicate n a).getLastD d = a := by
  induction n generalizing d with
  | zero => omega
  | succ m ih =>
    rw [List.replicate_succ, List.getLastD_cons]
    cases m with
    | zero => rfl
    | succ k => exact ih a (Nat.succ_pos k)

theorem foldr_min_replicate (a : ℚ) (n : ℕ) : (List.replicate n a).foldr min a = a := by
  induction n with
  | zero => rfl
  | succ m ih => rw [List.replicate_succ, List.foldr_cons, ih, min_self]

theorem foldr_max_replicate (a : ℚ) (n : ℕ) : (List.replicate n a).foldr max a = a := by
  induction n with
  | zero => rfl
  | succ m ih => rw [List.replicate_succ, List.foldr_cons, ih, max_self]

theorem minMaxOf_replicate (a : ℚ) (n : ℕ) (h : 0 < n) :
    minMaxOf (List.replicate n a) = (a, a) := by
  obtain ⟨m, rfl⟩ : ∃ m, n = m + 1 := ⟨n - 1, by omega⟩
  unfold minMaxOf
  rw [List.replicate_succ]
  simp only [List.headD_cons, List.foldr_cons]
  rw [foldr_min_replicate, foldr_max_replicate, min_self, max_self]

theorem meanQ_replicate (a : ℚ) (n : ℕ) (h : 0 < n) : meanQ (List.replicate n a) = a := by
  unfold meanQ
  rw [List.sum_replicate, List.length_replicate, nsmul_eq_mul]
  have hn : (n : ℚ) ≠ 0 := by positivity
  field_simp

theorem sqDevSum_replicate (a : ℚ) (n : ℕ) (h : 0 < n) :
    sqDevSum (List.replicate n a) = 0 := by
  unfold sqDevSum
  rw [meanQ_replicate a n h, List.map_replicate]
  simp

theorem stdP_replicate (a : ℚ) (n : ℕ) : stdP (List.replicate n a) = 0 := by
  unfold stdP
  split
  · rfl
  · rename_i hlen
    rw [List.length_replicate] at hlen ⊢
    rw [sqDevSum_replicate a n (by omega)]
    rw [zero_div, sqrtQ_zero]

theorem takeLast_replicate (k n : ℕ) (a : ℚ) :
    takeLast k (List.replicate n a) = List.replicate (n - (n - k)) a := by
  unfold takeLast
  rw [List.length_replicate, List.drop_replicate]

/-! ## Claim theorems -/

/-- C1. Every completed `predict` result of a registered forecaster
(the LSTM in its native and fallback modes, the three Simple ML
predictors; the moving-average predictor cited alongside them behaves
identically) has exactly `prediction_days` prediction points, the
`i`-th dated `i + 1` calendar days after the last historical date — so
the dates increase by exactly one day and `prediction_days = 1` yields
a single point dated one day after the last historical date. -/
theorem C1_completed_shape :
    (∀ (mn sym : String) (st : Option ScalerFit) (p : SimpleMLParams)
        (input : List Row) (days : ℕ) (conf : ℚ),
      (simpleMLPredict mn sym st p input days conf).2.status = .completed →
      predictionDatesOk (simpleMLPredict mn sym st p input days conf).2 input days) ∧
    (∀ (sym : String) (tf : Bool) (st : LSTMState) (store : ModelStore)
        (net : List ℚ → ℚ) (rs : ℚ)
        (noise : ℕ → ℚ) (input : List Row) (days : ℕ) (conf : ℚ),
      (lstmPredict sym tf st store net rs noise input days conf).2.status = .completed →
      predictionDatesOk (lstmPredict sym tf st store net rs noise input days conf).2
        input days) ∧
    (∀ (sym : String) (input : List Row) (days : ℕ) (conf : ℚ)
        (powF : ℚ → ℚ → ℚ) (noise : ℕ → ℚ),
      (maPredict sym input days conf powF noise).status = .completed →
      predictionDatesOk (maPredict sym input days conf powF noise) input days) :=
  ⟨simpleML_datesOk, lstm_datesOk, ma_datesOk⟩

/-! ## C2: bound invariants of prediction points -/

/-- Five days of collapsing prices. -/
def c2Input : List Row := datedFrom 0 [100, 80, 60, 40, 20]

/-- A Simple ML call whose trained model extrapolates a negative price
(`-5`), tripping the `pred_price <= 0` branch of the validity check and
hence the trend fallback of lines 156–158. -/
def c2Params : SimpleMLParams :=
  { X := [[1], [2]], lastFeatures := [1], predRaw := some (-5), r2 := 0 }

def c2Result : ModelResult :=
  (simpleMLPredict "Linear Regression" "AAPL" none c2Params c2Input 2 (19/20)).2

/-- C2, counterexample.  On five days of prices falling by 20 per day
(last close 20, five-day mean diff −20) with a raw model prediction of
−5, the `pred_price <= 0` check trips the trend fallback, whose price
for the second horizon day (loop index `i = 1`) is
`20 + (−20)·(1+1) = −20 < 0`.  The completed result's second point has
`predicted_price = −20 < 0`, while its `lower_bound` is clamped at
`max(0, ·) ≥ 0`, so `predicted_price < lower_bound`: the claimed
`predicted_price > 0` and `lower_bound ≤ predicted_price` both fail. -/
theorem C2_counterexample :
    c2Result.status = Status.completed ∧
    (c2Result.predictions.getD 1 defaultPoint).predicted_price < 0 ∧
    (c2Result.predictions.getD 1 defaultPoint).predicted_price <
      (c2Result.predictions.getD 1 defaultPoint).lower_bound := by
  have hp : c2Result.predictions =
      simpleMLPoints (lastDateOf c2Input) (closesOf c2Input) (some (-5)) 2 (19/20) := rfl
  have e : c2Result.predictions.getD 1 defaultPoint =
      mkPoint (lastDateOf c2Input + ((2 : ℕ) : Int))
        (simpleMLPredPrice (closesOf c2Input) (some (-5)) 1)
        (simpleMLMargin (closesOf c2Input) 1) (19/20) := by
    rw [hp]
    exact getD_map_range _ _ 1 2 (by norm_num)
  have hprice : simpleMLPredPrice (closesOf c2Input) (some (-5)) 1 = -20 := by
    rw [c2Input, closesOf_datedFrom]
    norm_num [simpleMLPredPrice, simpleMLFallbackPrice, takeLast, diffs, meanQ]
  have hpred : (c2Result.predictions.getD 1 defaultPoint).predicted_price = -20 := by
    rw [e, mkPoint_pred, hprice]
    norm_num [round2]
  have hlow : 0 ≤ (c2Result.predictions.getD 1 defaultPoint).lower_bound := by
    rw [e, mkPoint_lower]
    exact round2_nonneg (le_max_left _ _)
  refine ⟨rfl, ?_, ?_⟩
  · rw [hpred]; norm_num
  · rw [hpred]; linarith

theorem lstmFallbackMargin_nonneg (closes : List ℚ) (price : ℚ) (h : 0 ≤ price) :
    0 ≤ lstmFallbackMargin closes price := by
  unfold lstmFallbackMargin
  have := stdP_nonneg (takeLast 30 closes)
  have : (0:ℚ) ≤ price * (3/100) := by positivity
  exact le_max_of_le_right this

theorem lstmNativeMargin_nonneg (closes : List ℚ) (price : ℚ) (i : ℕ) :
    0 ≤ lstmNativeMargin closes price i := by
  unfold lstmNativeMargin
  have h1 := stdP_nonneg (takeLast 30 closes)
  have h2 := sqrtQ_nonneg (((i : ℚ) + 1) / 30)
  exact le_max_of_le_left (by positivity)

/-- C2, amended.  For every point of a completed `predict` result:
`0 ≤ lower_bound` and `predicted_price ≤ upper_bound` always, and
whenever the day's unrounded price is non-negative additionally
`0 ≤ predicted_price` and `lower_bound ≤ predicted_price`.  In the
LSTM fallback the prices are floored at `0`, so the full chain
`0 ≤ lower ≤ predicted ≤ upper` holds unconditionally there.  The
Simple ML trend fallback (and an unrounded price in `(0, 0.005)`) can
make `predicted_price ≤ 0`, in which case `predicted_price <
lower_bound`; `predicted_price > 0` is not guaranteed. -/
theorem C2_amended :
    (∀ (mn sym : String) (st : Option ScalerFit) (p : SimpleMLParams)
        (input : List Row) (days : ℕ) (conf : ℚ) (i : ℕ), i < days →
      (simpleMLPredict mn sym st p input days conf).2.status = .completed →
      0 ≤ ((simpleMLPredict mn sym st p input days conf).2.predictions.getD i defaultPoint).lower_bound ∧
      ((simpleMLPredict mn sym st p input days conf).2.predictions.getD i defaultPoint).predicted_price ≤
        ((simpleMLPredict mn sym st p input days conf).2.predictions.getD i defaultPoint).upper_bound ∧
      (0 ≤ simpleMLPredPrice (closesOf input) p.predRaw i →
        0 ≤ ((simpleMLPredict mn sym st p input days conf).2.predictions.getD i defaultPoint).predicted_price ∧
        ((simpleMLPredict mn sym st p input days conf).2.predictions.getD i defaultPoint).lower_bound ≤
          ((simpleMLPredict mn sym st p input days conf).2.predictions.getD i defaultPoint).predicted_price)) ∧
    (∀ (sym : String) (input : List Row) (days : ℕ) (conf : ℚ) (noise : ℕ → ℚ) (i : ℕ),
      i < days →
      0 ≤ ((lstmFallbackResult sym input days conf noise).predictions.getD i defaultPoint).lower_bound ∧
      ((lstmFallbackResult sym input days conf noise).predictions.getD i defaultPoint).lower_bound ≤
        ((lstmFallbackResult sym input days conf noise).predictions.getD i defaultPoint).predicted_price ∧
      ((lstmFallbackResult sym input days conf noise).predictions.getD i defaultPoint).predicted_price ≤
        ((lstmFallbackResult sym input days conf noise).predictions.getD i defaultPoint).upper_bound) ∧
    (∀ (sym : String) (st : LSTMState) (store : ModelStore) (net : List ℚ → ℚ)
        (rs : ℚ) (noise : ℕ → ℚ)
        (input : List Row) (days : ℕ) (conf : ℚ) (i : ℕ), i < days →
      ¬ input.length < 60 + 30 →
      0 ≤ ((lstmPredict sym true st store net rs noise input days conf).2.predictions.getD i defaultPoint).lower_bound ∧
      ((lstmPredict sym true st store net rs noise input days conf).2.predictions.getD i defaultPoint).predicted_price ≤
        ((lstmPredict sym true st store net rs noise input days conf).2.predictions.getD i defaultPoint).upper_bound ∧
      (0 ≤ lstmNativePriceOf store sym input net i →
        ((lstmPredict sym true st store net rs noise input days conf).2.predictions.getD i defaultPoint).lower_bound ≤
          ((lstmPredict sym true st store net rs noise input days conf).2.predictions.getD i defaultPoint).predicted_price)) := by
  refine ⟨?_, ?_, ?_⟩
  · intro mn sym st p input days conf i hi hst
    unfold simpleMLPredict at hst ⊢
    by_cases hX : p.X.isEmpty
    · simp [hX, failedResult] at hst
    · simp only [hX, if_false, Bool.false_eq_true]
      rw [simpleMLPoints, getD_map_range _ _ i days hi]
      have hb := mkPoint_bounds (lastDateOf input + ((i + 1 : ℕ) : Int))
        (simpleMLPredPrice (closesOf input) p.predRaw i)
        (simpleMLMargin (closesOf input) i) conf (simpleMLMargin_nonneg _ i)
      exact ⟨hb.1, hb.2.1, fun hp => hb.2.2 hp⟩
  · intro sym input days conf noise i hi
    unfold lstmFallbackResult
    rw [getD_map_range _ _ i days hi]
    have hprice : 0 ≤ (lstmFallbackPrices (closesOf input) days noise).getD i 0 := by
      unfold lstmFallbackPrices
      rw [getD_map_range _ _ i days hi]
      exact le_max_left _ _
    have hb := mkPoint_bounds (lastDateOf input + ((i + 1 : ℕ) : Int))
      ((lstmFallbackPrices (closesOf input) days noise).getD i 0)
      (lstmFallbackMargin (closesOf input) ((lstmFallbackPrices (closesOf input) days noise).getD i 0))
      conf (lstmFallbackMargin_nonneg _ _ hprice)
    exact ⟨hb.1, (hb.2.2 hprice).2, hb.2.1⟩
  · intro sym st store net rs noise input days conf i hi hlen
    unfold lstmPredict
    rw [if_neg hlen]
    simp only [Bool.true_eq_false, if_false]
    simp only [lstmNativeResult]
    rw [getD_map_range _ _ i days hi]
    have hb := mkPoint_bounds (lastDateOf input + ((i + 1 : ℕ) : Int))
      (lstmNativePriceOf store sym input net i) (lstmNativeMarginOf store sym input net i)
      conf (lstmNativeMargin_nonneg _ _ i)
    exact ⟨hb.1, hb.2.1, fun hp => (hb.2.2 hp).2⟩

/-- Witness for `C2_amended` at concrete inputs. -/
theorem C2_amended_witness :
    ((0 : ℕ) < 2 ∧
      (simpleMLPredict "Linear Regression" "AAPL" none c2Params c2Input 2 (19/20)).2.status = .completed ∧
      0 ≤ ((simpleMLPredict "Linear Regression" "AAPL" none c2Params c2Input 2 (19/20)).2.predictions.getD 0 defaultPoint).lower_bound) ∧
    ((0 : ℕ) < 3 ∧
      ((lstmFallbackResult "AAPL" c2Input 3 (19/20) (fun _ => 0)).predictions.getD 0 defaultPoint).lower_bound ≤
        ((lstmFallbackResult "AAPL" c2Input 3 (19/20) (fun _ => 0)).predictions.getD 0 defaultPoint).predicted_price) :=
  ⟨⟨by norm_num, rfl,
    (C2_amended.1 "Linear Regression" "AAPL" none c2Params c2Input 2 (19/20) 0 (by norm_num) rfl).1⟩,
   ⟨by norm_num,
    (C2_amended.2.1 "AAPL" c2Input 3 (19/20) (fun _ => 0) 0 (by norm_num)).2.1⟩⟩

/-! ## C3: confidence-margin monotonicity in the horizon index -/

def c3Closes : List ℚ := List.replicate 92 100

/-- 92 days of constant prices: the 30-day volatility is `0`, so the
LSTM margin is exactly the `pred_price * 0.025` floor. -/
def c3Input : List Row := datedFrom 0 c3Closes

/-- A possible trained network whose output depends on the last entry
of its input window — the entry that the recursive feedback of line 219
overwrites with the previous scaled prediction. -/
def c3Net : List ℚ → ℚ := fun s => if s.getLastD 0 = 0 then -40 else -70

def c3Result : ModelResult :=
  (lstmPredict "AAPL" true ⟨none, false⟩ emptyStore c3Net (4/5) (fun _ => 0) c3Input 2 (19/20)).2

theorem c3_closes : closesOf c3Input = c3Closes := closesOf_datedFrom 0 c3Closes

theorem c3_stdP : stdP (takeLast 30 c3Closes) = 0 := by
  unfold c3Closes
  rw [takeLast_replicate]
  exact stdP_replicate 100 _

theorem c3_seq0 : lstmSeq0 c3Input = List.replicate 60 0 := by
  unfold lstmSeq0
  rw [c3_closes]
  unfold c3Closes
  rw [minMaxOf_replicate 100 92 (by norm_num), List.map_replicate]
  have h : scaleMinMax (100, 100) 100 = 0 := by
    unfold scaleMinMax mmRange
    norm_num
  rw [h, takeLast_replicate]

theorem c3_price0 : lstmNativePriceOf emptyStore "AAPL" c3Input c3Net 0 = 60 := by
  unfold lstmNativePriceOf
  rw [lstmUsedPair_none emptyStore "AAPL" c3Input c3Net rfl]
  show lstmNativePrice (minMaxOf (closesOf c3Input)) c3Net (lstmSeq0 c3Input) 0 = 60
  unfold lstmNativePrice lstmSeq
  rw [c3_seq0, c3_closes]
  unfold c3Closes
  rw [minMaxOf_replicate 100 92 (by norm_num)]
  have h : c3Net (List.replicate 60 0) = -40 := by
    unfold c3Net
    rw [getLastD_replicate 0 0 60 (by norm_num)]
    norm_num
  rw [h]
  unfold invScaleMinMax mmRange
  norm_num

theorem c3_price1 : lstmNativePriceOf emptyStore "AAPL" c3Input c3Net 1 = 30 := by
  unfold lstmNativePriceOf
  rw [lstmUsedPair_none emptyStore "AAPL" c3Input c3Net rfl]
  show lstmNativePrice (minMaxOf (closesOf c3Input)) c3Net (lstmSeq0 c3Input) 1 = 30
  unfold lstmNativePrice
  rw [c3_seq0, c3_closes]
  unfold c3Closes
  rw [minMaxOf_replicate 100 92 (by norm_num)]
  have h0 : c3Net (List.replicate 60 0) = -40 := by
    unfold c3Net
    rw [getLastD_replicate 0 0 60 (by norm_num)]
    norm_num
  have hseq : lstmSeq c3Net (List.replicate 60 0) 1 =
      (List.replicate 60 (0:ℚ)).drop 1 ++ [-40] := by
    show (List.replicate 60 (0:ℚ)).drop 1 ++ [c3Net (List.replicate 60 0)] = _
    rw [h0]
  have h1 : c3Net (lstmSeq c3Net (List.replicate 60 0) 1) = -70 := by
    rw [hseq]
    unfold c3Net
    rw [List.getLastD_eq_getLast?, List.getLast?_concat]
    norm_num
  rw [h1]
  unfold invScaleMinMax mmRange
  norm_num

theorem c3_margin (i : ℕ) (p : ℚ) (hp : 0 ≤ p) :
    lstmNativeMargin (closesOf c3Input) p i = p * (25/1000) := by
  unfold lstmNativeMargin
  rw [c3_closes, c3_stdP, zero_mul, zero_mul]
  exact max_eq_right (by positivity)

/-- C3, counterexample.  On 92 days of constant prices (volatility 0)
for a fresh symbol (empty saved-models store, so the train branch runs)
with a trained network that reacts to the recursively-updated last
window entry, the native LSTM predicts 60 for day 1 and 30 for day 2;
its margin `max(vol·1.96·√((i+1)/30), price·0.025)` is then
`0.025 · price`, so the output margin falls from `1.5` to `0.75` — the
margin is not non-decreasing in the horizon index for the LSTM. -/
theorem C3_counterexample :
    c3Result.status = Status.completed ∧
    (c3Result.predictions.getD 1 defaultPoint).upper_bound -
        (c3Result.predictions.getD 1 defaultPoint).predicted_price <
      (c3Result.predictions.getD 0 defaultPoint).upper_bound -
        (c3Result.predictions.getD 0 defaultPoint).predicted_price := by
  have hp : c3Result.predictions = (List.range 2).map (fun (i : ℕ) =>
      mkPoint (lastDateOf c3Input + ((i + 1 : ℕ) : Int))
        (lstmNativePriceOf emptyStore "AAPL" c3Input c3Net i)
        (lstmNativeMarginOf emptyStore "AAPL" c3Input c3Net i) (19/20)) := rfl
  have e0 : c3Result.predictions.getD 0 defaultPoint =
      mkPoint (lastDateOf c3Input + ((1 : ℕ) : Int))
        (lstmNativePriceOf emptyStore "AAPL" c3Input c3Net 0)
        (lstmNativeMarginOf emptyStore "AAPL" c3Input c3Net 0) (19/20) := by
    rw [hp]; exact getD_map_range _ _ 0 2 (by norm_num)
  have e1 : c3Result.predictions.getD 1 defaultPoint =
      mkPoint (lastDateOf c3Input + ((2 : ℕ) : Int))
        (lstmNativePriceOf emptyStore "AAPL" c3Input c3Net 1)
        (lstmNativeMarginOf emptyStore "AAPL" c3Input c3Net 1) (19/20) := by
    rw [hp]; exact getD_map_range _ _ 1 2 (by norm_num)
  have m0 : lstmNativeMarginOf emptyStore "AAPL" c3Input c3Net 0 = 3/2 := by
    unfold lstmNativeMarginOf
    rw [c3_price0, c3_margin 0 60 (by norm_num)]
    norm_num
  have m1 : lstmNativeMarginOf emptyStore "AAPL" c3Input c3Net 1 = 3/4 := by
    unfold lstmNativeMarginOf
    rw [c3_price1, c3_margin 1 30 (by norm_num)]
    norm_num
  refine ⟨rfl, ?_⟩
  rw [e0, e1, mkPoint_upper, mkPoint_upper, mkPoint_pred, mkPoint_pred,
    c3_price0, c3_price1, m0, m1]
  norm_num [round2]

/-- C3, amended.  For a fixed Simple ML model, input series and
confidence level, the unrounded confidence margin
`std(close.tail(20)) · 1.96 · √(i+1)` is non-decreasing in the horizon
index `i`; and whenever the raw model prediction is valid (a positive
price — then the same price is predicted for every horizon day) the
output margin `upper_bound − predicted_price` is non-decreasing too.
The LSTM's margin instead carries a floor proportional to the predicted
price (`0.025 ·` price natively, `0.03 ·` price in fallback), so it can
decrease when the predicted prices fall, as the counterexample shows;
the claim holds as stated only for the Simple ML forecasters. -/
theorem C3_amended :
    (∀ (closes : List ℚ) (i j : ℕ), i ≤ j →
      simpleMLMargin closes i ≤ simpleMLMargin closes j) ∧
    (∀ (lastD : Int) (closes : List ℚ) (p : ℚ) (days : ℕ) (conf : ℚ) (i j : ℕ),
      0 < p → i ≤ j → j < days →
      ((simpleMLPoints lastD closes (some p) days conf).getD i defaultPoint).upper_bound -
        ((simpleMLPoints lastD closes (some p) days conf).getD i defaultPoint).predicted_price ≤
      ((simpleMLPoints lastD closes (some p) days conf).getD j defaultPoint).upper_bound -
        ((simpleMLPoints lastD closes (some p) days conf).getD j defaultPoint).predicted_price) := by
  have hmar : ∀ (closes : List ℚ) (i j : ℕ), i ≤ j →
      simpleMLMargin closes i ≤ simpleMLMargin closes j := by
    intro closes i j hij
    unfold simpleMLMargin
    have hs := sqrtQ_mono (show ((i : ℚ) + 1) ≤ ((j : ℚ) + 1) by
      have : (i : ℚ) ≤ (j : ℚ) := by exact_mod_cast hij
      linarith)
    have h0 : (0 : ℚ) ≤ stdP (takeLast 20 closes) * (196/100) := by
      have := stdP_nonneg (takeLast 20 closes)
      positivity
    exact mul_le_mul_of_nonneg_left hs h0
  refine ⟨hmar, ?_⟩
  intro lastD closes p days conf i j hp hij hj
  have hi : i < days := lt_of_le_of_lt hij hj
  unfold simpleMLPoints
  rw [getD_map_range _ _ i days hi, getD_map_range _ _ j days hj]
  have hprice : ∀ k : ℕ, simpleMLPredPrice closes (some p) k = p := by
    intro k
    simp only [simpleMLPredPrice]
    rw [if_neg (not_le.2 hp)]
  rw [mkPoint_upper, mkPoint_upper, mkPoint_pred, mkPoint_pred, hprice i, hprice j]
  have := round2_mono (show p + simpleMLMargin closes i ≤ p + simpleMLMargin closes j by
    have := hmar closes i j hij
    linarith)
  linarith

/-- Witness for `C3_amended` at concrete inputs. -/
theorem C3_amended_witness :
    ((0 : ℕ) ≤ 1 ∧ simpleMLMargin (c2Input.map Prod.snd) 0 ≤ simpleMLMargin (c2Input.map Prod.snd) 1) ∧
    (0 < (50 : ℚ) ∧ (0 : ℕ) ≤ 1 ∧ (1 : ℕ) < 2 ∧
      ((simpleMLPoints 4 (closesOf c2Input) (some 50) 2 (19/20)).getD 0 defaultPoint).upper_bound -
        ((simpleMLPoints 4 (closesOf c2Input) (some 50) 2 (19/20)).getD 0 defaultPoint).predicted_price ≤
      ((simpleMLPoints 4 (closesOf c2Input) (some 50) 2 (19/20)).getD 1 defaultPoint).upper_bound -
        ((simpleMLPoints 4 (closesOf c2Input) (some 50) 2 (19/20)).getD 1 defaultPoint).predicted_price) :=
  ⟨⟨by norm_num, C3_amended.1 _ 0 1 (by norm_num)⟩,
   ⟨by norm_num, by norm_num, by norm_num,
    C3_amended.2 4 (closesOf c2Input) 50 2 (19/20) 0 1 (by norm_num) (by norm_num) (by norm_num)⟩⟩

/-! ## C4: insufficient-data behaviour -/

/-- 50 days of history: below the LSTM minimum of 90. -/
def c4Input : List Row := datedFrom 0 (List.replicate 50 100)

/-- C4, counterexample.  Calling the LSTM `predict` with 50 rows (below
the stated minimum `sequence_length + 30 = 90`) does not raise to the
caller: the `ValueError` of lines 119–120 is caught by the method's own
`except` (lines 263–272) and the call returns an ordinary result object
with `status = "failed"` carrying the message — the opposite of
"raises ... rather than returning a result object". -/
theorem C4_counterexample :
    lstmPredict "AAPL" true ⟨none, false⟩ emptyStore (fun _ => 0) 0 (fun _ => 0) c4Input 30
        (19/20) =
      ((⟨none, false⟩, emptyStore),
        failedResult "AAPL" "LSTM" "Need at least 90 days of historical data") :=
  rfl

/-- C4, amended.  Each forecaster detects history shorter than its
stated minimum, but the raised `ValueError` is caught inside
`predict`/`backtest` itself and converted into a returned failed-status
result carrying the validation message; the instance state is untouched
and no exception reaches the caller. -/
theorem C4_amended :
    (∀ (sym : String) (tf : Bool) (st : LSTMState) (store : ModelStore)
        (net : List ℚ → ℚ) (rs : ℚ)
        (noise : ℕ → ℚ) (input : List Row) (days : ℕ) (conf : ℚ),
      input.length < 90 →
      lstmPredict sym tf st store net rs noise input days conf =
        ((st, store), failedResult sym "LSTM" "Need at least 90 days of historical data")) ∧
    (∀ (sym : String) (st : LSTMState) (input : List Row) (testDays : ℕ)
        (rest : LSTMState × ModelResult),
      input.length < 60 + testDays + 30 →
      lstmBacktest sym st input testDays rest =
        (st, failedResult sym "LSTM"
          ("Need at least " ++ toString (60 + testDays + 30) ++ " days for backtesting"))) ∧
    (∀ (mn sym : String) (st : Option ScalerFit) (p : SimpleMLParams)
        (input : List Row) (days : ℕ) (conf : ℚ),
      p.X = [] →
      simpleMLPredict mn sym st p input days conf =
        (st, failedResult sym mn "Not enough data for training")) := by
  refine ⟨?_, ?_, ?_⟩
  · intro sym tf st store net rs noise input days conf h
    unfold lstmPredict
    rw [if_pos (show input.length < 60 + 30 by omega)]
  · intro sym st input testDays rest h
    unfold lstmBacktest
    rw [if_pos h]
  · intro mn sym st p input days conf h
    unfold simpleMLPredict
    rw [if_pos (by simp [h])]

/-- Witness for `C4_amended` at concrete inputs. -/
theorem C4_amended_witness :
    (c4Input.length < 90 ∧
      lstmPredict "AAPL" false ⟨none, false⟩ emptyStore (fun _ => 1) 0 (fun _ => 0) c4Input 5
          (19/20) =
        ((⟨none, false⟩, emptyStore),
          failedResult "AAPL" "LSTM" "Need at least 90 days of historical data")) ∧
    (c4Input.length < 60 + 5 + 30 ∧
      lstmBacktest "AAPL" ⟨none, false⟩ c4Input 5
          (⟨none, false⟩, failedResult "AAPL" "LSTM" "unused") =
        (⟨none, false⟩, failedResult "AAPL" "LSTM"
          ("Need at least " ++ toString (60 + 5 + 30) ++ " days for backtesting"))) ∧
    ((⟨[], [], none, 0⟩ : SimpleMLParams).X = [] ∧
      simpleMLPredict "Linear Regression" "AAPL" none ⟨[], [], none, 0⟩ c4Input 3 (19/20) =
        (none, failedResult "AAPL" "Linear Regression" "Not enough data for training")) :=
  ⟨⟨by decide, C4_amended.1 "AAPL" false ⟨none, false⟩ emptyStore (fun _ => 1) 0 (fun _ => 0)
      c4Input 5 (19/20) (by decide)⟩,
   ⟨by decide, C4_amended.2.1 "AAPL" ⟨none, false⟩ c4Input 5
      (⟨none, false⟩, failedResult "AAPL" "LSTM" "unused") (by decide)⟩,
   ⟨rfl, C4_amended.2.2 "Linear Regression" "AAPL" none ⟨[], [], none, 0⟩ c4Input 3 (19/20) rfl⟩⟩

/-! ## C5: recursive feed-back of predictions -/

def c5Closes : List ℚ := [100, 80, 60, 40, 20]

def c5Input : List Row := datedFrom 0 c5Closes

/-- A Simple ML call whose (deterministic) trained model outputs the
valid price 50 on the single feature vector it is ever shown. -/
def c5Params : SimpleMLParams :=
  { X := [[2], [2]], lastFeatures := [3], predRaw := some 50, r2 := 0 }

def c5Result : ModelResult :=
  (simpleMLPredict "Linear Regression" "AAPL" none c5Params c5Input 2 (19/20)).2

/-- C5, counterexample.  On collapsing prices (last close 20) a Simple
ML model predicts 50 for day 1 — a price unlike anything in its feature
window — yet the feature vector handed to the model at step 1 is
identical to the one at step 0 (the loop never reassigns
`last_features_scaled`), and day 2's prediction is again exactly 50:
the predicted price is not fed back into the feature state between
successive steps. -/
theorem C5_counterexample :
    c5Result.status = Status.completed ∧
    simpleMLStepInput c5Params 1 = simpleMLStepInput c5Params 0 ∧
    (c5Result.predictions.getD 0 defaultPoint).predicted_price = 50 ∧
    (c5Result.predictions.getD 1 defaultPoint).predicted_price = 50 ∧
    (closesOf c5Input).getLastD 0 = 20 := by
  have hp : c5Result.predictions =
      simpleMLPoints (lastDateOf c5Input) (closesOf c5Input) (some 50) 2 (19/20) := rfl
  have hpred : ∀ k : ℕ, k < 2 →
      (c5Result.predictions.getD k defaultPoint).predicted_price = 50 := by
    intro k hk
    rw [hp]
    unfold simpleMLPoints
    rw [getD_map_range _ _ k 2 hk, mkPoint_pred]
    simp only [simpleMLPredPrice]
    rw [if_neg (by norm_num)]
    norm_num [round2]
  refine ⟨rfl, rfl, hpred 0 (by norm_num), hpred 1 (by norm_num), ?_⟩
  show (closesOf (datedFrom 0 c5Closes)).getLastD 0 = 20
  rw [closesOf_datedFrom]
  rfl

/-- C5, amended.  Only the native LSTM path forecasts in a forward
chain: each loop step appends the scaled prediction to the input window
of the next step (`np.roll` plus overwrite of the last entry, lines
217–219), so the window at step `i + 1` is the step-`i` window shifted
left by one with the step-`i` network output as its last entry.  The
Simple ML predictors never update `last_features_scaled` inside their
prediction loop: the model input is the same at every step, and with a
valid raw prediction the same price is predicted for every horizon day
(only the invalid-prediction trend fallback varies with the day). -/
theorem C5_amended :
    (∀ (net : List ℚ → ℚ) (s0 : List ℚ) (i : ℕ),
      lstmSeq net s0 (i + 1) =
        (lstmSeq net s0 i).drop 1 ++ [net (lstmSeq net s0 i)] ∧
      (lstmSeq net s0 (i + 1)).getLast? = some (net (lstmSeq net s0 i))) ∧
    (∀ (p : SimpleMLParams) (i j : ℕ), simpleMLStepInput p i = simpleMLStepInput p j) ∧
    (∀ (lastD : Int) (closes : List ℚ) (pr conf : ℚ) (dn i : ℕ),
      i < dn → 0 < pr →
      ((simpleMLPoints lastD closes (some pr) dn conf).getD i defaultPoint).predicted_price =
        round2 pr) := by
  refine ⟨?_, fun p i j => rfl, ?_⟩
  · intro net s0 i
    refine ⟨rfl, ?_⟩
    show ((lstmSeq net s0 i).drop 1 ++ [net (lstmSeq net s0 i)]).getLast? = _
    rw [List.getLast?_concat]
  · intro lastD closes pr conf dn i hi hpr
    unfold simpleMLPoints
    rw [getD_map_range _ _ _ _ hi, mkPoint_pred]
    simp only [simpleMLPredPrice]
    rw [if_neg (not_le.2 hpr)]

/-- Witness for `C5_amended` at concrete inputs. -/
theorem C5_amended_witness :
    (0 : ℕ) < 1 ∧ 0 < (50 : ℚ) ∧
    ((simpleMLPoints 4 c5Closes (some 50) 1 (19/20)).getD 0 defaultPoint).predicted_price =
      round2 50 :=
  ⟨by norm_num, by norm_num,
   C5_amended.2.2 4 c5Closes 50 (19/20) 1 0 (by norm_num) (by norm_num)⟩

/-! ## C6: per-model isolation in `get_all_predictions` -/

theorem getAll_keys (models : List (String × PredFn)) (sym : String)
    (input : List Row) (days : ℕ) (conf : ℚ) :
    (getAllPredictions models sym input days conf).map Prod.fst = models.map Prod.fst := by
  unfold getAllPredictions
  rw [List.map_map]
  rfl

theorem lookup_map_self {β : Type} (models : List (String × PredFn)) (g : String → β)
    (n : String) (hmem : n ∈ models.map Prod.fst) :
    (models.map (fun e => (e.1, g e.1))).lookup n = some (g n) := by
  induction models with
  | nil => simp at hmem
  | cons e rest ih =>
    by_cases h : n = e.1
    · simp [List.lookup, h]
    · have hr : n ∈ rest.map Prod.fst := by
        rcases List.mem_cons.1 hmem with h1 | h1
        · exact absurd h1 h
        · exact h1
      simp only [List.map_cons, List.lookup]
      rw [show (n == e.1) = false by simp [h]]
      exact ih hr

theorem getAll_lookup (models : List (String × PredFn)) (sym : String)
    (input : List Row) (days : ℕ) (conf : ℚ) (n : String)
    (hmem : n ∈ models.map Prod.fst) :
    (getAllPredictions models sym input days conf).lookup n =
      some (getSinglePrediction models n sym input days conf) :=
  lookup_map_self models (fun m => getSinglePrediction models m sym input days conf) n hmem

/-- C6.  `get_all_predictions` returns one entry per registered model
name (same key list, in registry order), every entry carries a status,
a model whose `predict` raises produces a failed-status entry carrying
the error under that model's name, and each name's entry is determined
by that name's registry entry alone — so replacing one model's function
(for example with one that raises) leaves every other model's entry
present and unchanged. -/
theorem C6_get_all_isolation :
    (∀ (models : List (String × PredFn)) (sym : String) (input : List Row)
        (days : ℕ) (conf : ℚ),
      (getAllPredictions models sym input days conf).map Prod.fst = models.map Prod.fst) ∧
    (∀ (models : List (String × PredFn)) (sym : String) (input : List Row)
        (days : ℕ) (conf : ℚ) (e : String × ModelResult),
      e ∈ getAllPredictions models sym input days conf →
      e.2.status = .completed ∨ e.2.status = .failed) ∧
    (∀ (models : List (String × PredFn)) (sym : String) (input : List Row)
        (days : ℕ) (conf : ℚ) (n : String) (f : PredFn) (msg : String),
      n ∈ models.map Prod.fst → models.lookup n = some f →
      f sym input days conf = .error msg →
      (getAllPredictions models sym input days conf).lookup n =
        some (failedResult sym n msg)) ∧
    (∀ (models models' : List (String × PredFn)) (sym : String) (input : List Row)
        (days : ℕ) (conf : ℚ) (n : String),
      n ∈ models.map Prod.fst → n ∈ models'.map Prod.fst →
      models'.lookup n = models.lookup n →
      (getAllPredictions models' sym input days conf).lookup n =
        (getAllPredictions models sym input days conf).lookup n) := by
  refine ⟨getAll_keys, ?_, ?_, ?_⟩
  · intro models sym input days conf e _he
    cases hst : e.2.status with
    | completed => exact Or.inl rfl
    | failed => exact Or.inr rfl
  · intro models sym input days conf n f msg hmem hl hf
    rw [getAll_lookup models sym input days conf n hmem]
    unfold getSinglePrediction
    simp only [hl, hf]
  · intro models models' sym input days conf n hmem hmem' hl
    rw [getAll_lookup models sym input days conf n hmem,
      getAll_lookup models' sym input days conf n hmem']
    unfold getSinglePrediction
    simp only [hl]

/-- A registered model that completes normally. -/
def c6OkResult : ModelResult :=
  { symbol := "S", model := "A", predictions := [],
    metadata := { accuracy_score := some (3/4) }, status := .completed }

def c6OkFn : PredFn := fun _ _ _ _ => .ok c6OkResult

/-- A registered model whose `predict` raises. -/
def c6ErrFn : PredFn := fun _ _ _ _ => .error "boom"

def c6Models : List (String × PredFn) := [("A", c6OkFn), ("B", c6ErrFn)]

/-- Witness for `C6_get_all_isolation` on a two-model registry whose
second model raises. -/
theorem C6_witness :
    ((getAllPredictions c6Models "S" [] 1 1).map Prod.fst = c6Models.map Prod.fst) ∧
    ("B" ∈ c6Models.map Prod.fst ∧ c6Models.lookup "B" = some c6ErrFn ∧
      c6ErrFn "S" [] 1 1 = .error "boom" ∧
      (getAllPredictions c6Models "S" [] 1 1).lookup "B" =
        some (failedResult "S" "B" "boom")) ∧
    ("A" ∈ c6Models.map Prod.fst ∧ "A" ∈ (c6Models.take 1).map Prod.fst ∧
      (c6Models.take 1).lookup "A" = c6Models.lookup "A" ∧
      (getAllPredictions (c6Models.take 1) "S" [] 1 1).lookup "A" =
        (getAllPredictions c6Models "S" [] 1 1).lookup "A") :=
  ⟨C6_get_all_isolation.1 c6Models "S" [] 1 1,
   ⟨by simp [c6Models], rfl, rfl,
    C6_get_all_isolation.2.2.1 c6Models "S" [] 1 1 "B" c6ErrFn "boom"
      (by simp [c6Models]) rfl rfl⟩,
   ⟨by simp [c6Models], by simp [c6Models], rfl,
    C6_get_all_isolation.2.2.2 c6Models (c6Models.take 1) "S" [] 1 1 "A"
      (by simp [c6Models]) (by simp [c6Models]) rfl⟩⟩

/-! ## C7: `accuracy_score` in completed results -/

def c7Input : List Row := datedFrom 0 (List.replicate 92 100)

def c7FallbackResult : ModelResult :=
  (lstmPredict "AAPL" false ⟨none, false⟩ emptyStore (fun _ => 0) 0 (fun _ => 0) c7Input 3
    (19/20)).2

/-- C7, counterexample.  With TensorFlow unavailable and 92 days of
history, the LSTM returns a completed fallback result whose metadata
(lines 149–156) carries no `accuracy_score` key at all — so not every
completed result carries an `accuracy_score` in `[0.5, 0.95]`. -/
theorem C7_counterexample :
    c7FallbackResult.status = Status.completed ∧
    c7FallbackResult.metadata.fallback_mode = true ∧
    c7FallbackResult.metadata.accuracy_score = none :=
  ⟨rfl, rfl, rfl⟩

theorem simpleMLAccuracy_bounds (n : ℕ) (r2 : ℚ) :
    1/2 ≤ simpleMLAccuracy n r2 ∧ simpleMLAccuracy n r2 ≤ 19/20 := by
  unfold simpleMLAccuracy
  split
  · exact ⟨le_max_left _ _, max_le (by norm_num) (min_le_left _ _)⟩
  · norm_num

theorem lstmNativeAccuracy_bounds (n : ℕ) (rs : ℚ) :
    1/2 ≤ lstmNativeAccuracy n rs ∧ lstmNativeAccuracy n rs ≤ 19/20 := by
  unfold lstmNativeAccuracy
  split
  · exact ⟨le_trans (by norm_num) (le_max_left _ _), max_le (by norm_num) (min_le_left _ _)⟩
  · norm_num

theorem round3_in_range {a : ℚ} (h1 : 1/2 ≤ a) (h2 : a ≤ 19/20) :
    1/2 ≤ round3 a ∧ round3 a ≤ 19/20 := by
  have e1 : round3 (1/2) = 1/2 := by norm_num [round3]
  have e2 : round3 (19/20) = 19/20 := by norm_num [round3]
  constructor
  · rw [← e1]; exact round3_mono h1
  · rw [← e2]; exact round3_mono h2

/-- C7, amended.  Completed Simple ML results and completed native-mode
LSTM results carry `metadata.accuracy_score` clamped into
`[0.5, 0.95]` (natively the clamp is the tighter `[0.6, 0.95]`), but
the completed LSTM fallback result carries no `accuracy_score` key. -/
theorem C7_amended :
    (∀ (mn sym : String) (st : Option ScalerFit) (p : SimpleMLParams)
        (input : List Row) (days : ℕ) (conf : ℚ),
      (simpleMLPredict mn sym st p input days conf).2.status = .completed →
      ∃ a, (simpleMLPredict mn sym st p input days conf).2.metadata.accuracy_score = some a ∧
        1/2 ≤ a ∧ a ≤ 19/20) ∧
    (∀ (sym : String) (st : LSTMState) (store : ModelStore) (net : List ℚ → ℚ)
        (rs : ℚ) (noise : ℕ → ℚ)
        (input : List Row) (days : ℕ) (conf : ℚ),
      ¬ input.length < 90 →
      ∃ a, (lstmPredict sym true st store net rs noise input days
            conf).2.metadata.accuracy_score =
          some a ∧ 1/2 ≤ a ∧ a ≤ 19/20) ∧
    (∀ (sym : String) (input : List Row) (days : ℕ) (conf : ℚ) (noise : ℕ → ℚ),
      (lstmFallbackResult sym input days conf noise).status = .completed ∧
      (lstmFallbackResult sym input days conf noise).metadata.accuracy_score = none) := by
  refine ⟨?_, ?_, ?_⟩
  · intro mn sym st p input days conf h
    unfold simpleMLPredict at h ⊢
    by_cases hX : p.X.isEmpty
    · simp [hX, failedResult] at h
    · simp only [hX, if_false, Bool.false_eq_true]
      refine ⟨round3 (simpleMLAccuracy p.X.length p.r2), rfl, ?_⟩
      have hb := simpleMLAccuracy_bounds p.X.length p.r2
      exact round3_in_range hb.1 hb.2
  · intro sym st store net rs noise input days conf hlen
    unfold lstmPredict
    rw [if_neg (show ¬ input.length < 60 + 30 from hlen)]
    simp only [Bool.true_eq_false, if_false]
    refine ⟨round3 (lstmNativeAccuracy ((closesOf input).length - 60) rs), rfl, ?_⟩
    have hb := lstmNativeAccuracy_bounds ((closesOf input).length - 60) rs
    exact round3_in_range hb.1 hb.2
  · intro sym input days conf noise
    exact ⟨rfl, rfl⟩

/-- Witness for `C7_amended` at concrete inputs. -/
theorem C7_amended_witness :
    ((simpleMLPredict "Linear Regression" "AAPL" none c5Params c5Input 2 (19/20)).2.status =
        Status.completed ∧
      ∃ a, (simpleMLPredict "Linear Regression" "AAPL" none c5Params c5Input 2
          (19/20)).2.metadata.accuracy_score = some a ∧ 1/2 ≤ a ∧ a ≤ 19/20) ∧
    (¬ c7Input.length < 90 ∧
      ∃ a, (lstmPredict "AAPL" true ⟨none, false⟩ emptyStore (fun _ => 0) (4/5) (fun _ => 0)
          c7Input 2 (19/20)).2.metadata.accuracy_score = some a ∧ 1/2 ≤ a ∧ a ≤ 19/20) :=
  ⟨⟨rfl, C7_amended.1 "Linear Regression" "AAPL" none c5Params c5Input 2 (19/20) rfl⟩,
   ⟨by decide,
    C7_amended.2.1 "AAPL" ⟨none, false⟩ emptyStore (fun _ => 0) (4/5) (fun _ => 0) c7Input 2
      (19/20) (by decide)⟩⟩

/-- Witness for `C1_completed_shape` at concrete completed calls. -/
theorem C1_witness :
    (c5Result.status = Status.completed ∧ predictionDatesOk c5Result c5Input 2) ∧
    (c7FallbackResult.status = Status.completed ∧
      predictionDatesOk c7FallbackResult c7Input 3) :=
  ⟨⟨rfl, C1_completed_shape.1 "Linear Regression" "AAPL" none c5Params c5Input 2 (19/20) rfl⟩,
   ⟨rfl, C1_completed_shape.2.1 "AAPL" false ⟨none, false⟩ emptyStore (fun _ => 0) 0
      (fun _ => 0) c7Input 3 (19/20) rfl⟩⟩

/-! ## C8: instance-state mutation and cross-request persisted state -/

def c8Input : List Row := datedFrom 0 (List.replicate 92 100)

def c8Pre : LSTMState := ⟨none, false⟩

def c8Net : List ℚ → ℚ := fun _ => 1/2

/-- A saved-models directory as an earlier request for the same symbol
leaves it: a model persisted together with a scaler fitted on data
ranging over `(0, 200)`. -/
def c8Saved : SavedModel := ⟨(0, 200), c8Net⟩

def c8Store : ModelStore := fun _ => some c8Saved

theorem c8_minMax : minMaxOf (closesOf c8Input) = (100, 100) := by
  unfold c8Input
  rw [closesOf_datedFrom]
  exact minMaxOf_replicate 100 92 (by norm_num)

/-- The day-1 price of a fresh-symbol (train-branch) call: the network
output `1/2`, inverse-transformed with the freshly fit scaler
`(100, 100)` (zero range, unit scale): `1/2 + 100`. -/
theorem c8_price_fresh : lstmNativePriceOf emptyStore "AAPL" c8Input c8Net 0 = 201/2 := by
  unfold lstmNativePriceOf
  rw [lstmUsedPair_none emptyStore "AAPL" c8Input c8Net rfl]
  show invScaleMinMax (minMaxOf (closesOf c8Input)) (c8Net (lstmSeq c8Net (lstmSeq0 c8Input) 0))
    = 201/2
  rw [c8_minMax]
  unfold c8Net invScaleMinMax mmRange
  norm_num

/-- The day-1 price of the same call when a saved model exists: the
same network output `1/2`, but inverse-transformed with the pickled
scaler `(0, 200)` loaded at line 179: `1/2 · 200 + 0`. -/
theorem c8_price_saved : lstmNativePriceOf c8Store "AAPL" c8Input c8Net 0 = 100 := by
  unfold lstmNativePriceOf
  rw [lstmUsedPair_some c8Store "AAPL" c8Input c8Net c8Saved rfl]
  show invScaleMinMax c8Saved.scalerFit
    (c8Saved.net (lstmSeq c8Saved.net (lstmSeq0 c8Input) 0)) = 100
  unfold c8Saved c8Net invScaleMinMax mmRange
  norm_num

/-- C8, counterexample.  (i) A native LSTM `predict` call mutates the
registry-held instance: afterwards `self.scaler` is fitted and
`self.model` assigned, so the instance state differs from the fresh
one.  (ii) The call is not self-contained given its input price
series: on identical 92-day constant-price input, a fresh-symbol call
(no saved files) predicts `100.5` for day 1, while the same call
finding a scaler pickled by an earlier request (`data_min, data_max =
0, 200`) predicts `100` — the output depends on cross-request
persisted state. -/
theorem C8_counterexample :
    (lstmPredict "AAPL" true c8Pre emptyStore c8Net 0 (fun _ => 0) c8Input 3
        (19/20)).1.1 ≠ c8Pre ∧
    ((lstmPredict "AAPL" true c8Pre emptyStore c8Net 0 (fun _ => 0) c8Input 3
        (19/20)).2.predictions.getD 0 defaultPoint).predicted_price ≠
      ((lstmPredict "AAPL" true c8Pre c8Store c8Net 0 (fun _ => 0) c8Input 3
        (19/20)).2.predictions.getD 0 defaultPoint).predicted_price := by
  constructor
  · intro h
    have h2 : (lstmPredict "AAPL" true c8Pre emptyStore c8Net 0 (fun _ => 0) c8Input 3
        (19/20)).1.1.scalerFit =
        some (lstmUsedPair emptyStore "AAPL" c8Input c8Net).1 := rfl
    rw [h] at h2
    exact Option.noConfusion h2
  · have hfresh : (lstmPredict "AAPL" true c8Pre emptyStore c8Net 0 (fun _ => 0) c8Input 3
        (19/20)).2.predictions = (List.range 3).map (fun (i : ℕ) =>
          mkPoint (lastDateOf c8Input + ((i + 1 : ℕ) : Int))
            (lstmNativePriceOf emptyStore "AAPL" c8Input c8Net i)
            (lstmNativeMarginOf emptyStore "AAPL" c8Input c8Net i) (19/20)) := rfl
    have hsaved : (lstmPredict "AAPL" true c8Pre c8Store c8Net 0 (fun _ => 0) c8Input 3
        (19/20)).2.predictions = (List.range 3).map (fun (i : ℕ) =>
          mkPoint (lastDateOf c8Input + ((i + 1 : ℕ) : Int))
            (lstmNativePriceOf c8Store "AAPL" c8Input c8Net i)
            (lstmNativeMarginOf c8Store "AAPL" c8Input c8Net i) (19/20)) := rfl
    rw [hfresh, hsaved, getD_map_range _ _ 0 3 (by norm_num),
      getD_map_range _ _ 0 3 (by norm_num), mkPoint_pred, mkPoint_pred,
      c8_price_fresh, c8_price_saved]
    norm_num [round2]

/-- C8, amended.  `predict` calls mutate registry-held instance state
and share cross-request persisted state.  A native LSTM call for a
symbol with no saved model trains fresh: it leaves `self.scaler`
fitted to its own input's min/max and `self.model` assigned, and
persists both under the symbol for future calls.  A call that finds a
saved model loads the pickled pair instead: `self.scaler` ends up
holding the pickled fit, the store is unchanged, and the returned
result depends on the store only through the symbol's persisted entry
(and is independent of the instance state the call started from) — so
a second request's output can differ from a fresh one on identical
input, as the counterexample shows.  The Simple ML predictors refit
`self.scaler` from the call's own input before its only use, so their
results are independent of the incoming instance state, though the
refit itself is still a mutation. -/
theorem C8_amended :
    (∀ (sym : String) (st : LSTMState) (store : ModelStore) (net : List ℚ → ℚ)
        (rs : ℚ) (noise : ℕ → ℚ) (input : List Row) (days : ℕ) (conf : ℚ),
      ¬ input.length < 90 → store sym = none →
      (lstmPredict sym true st store net rs noise input days conf).1.1 =
        ⟨some (minMaxOf (closesOf input)), true⟩ ∧
      (lstmPredict sym true st store net rs noise input days conf).1.2 sym =
        some ⟨minMaxOf (closesOf input), net⟩) ∧
    (∀ (sym : String) (st : LSTMState) (store : ModelStore) (net : List ℚ → ℚ)
        (rs : ℚ) (noise : ℕ → ℚ) (input : List Row) (days : ℕ) (conf : ℚ)
        (saved : SavedModel),
      ¬ input.length < 90 → store sym = some saved →
      (lstmPredict sym true st store net rs noise input days conf).1.1 =
        ⟨some saved.scalerFit, true⟩ ∧
      (lstmPredict sym true st store net rs noise input days conf).1.2 = store) ∧
    (∀ (sym : String) (tf : Bool) (st st' : LSTMState) (store store' : ModelStore)
        (net : List ℚ → ℚ) (rs : ℚ) (noise : ℕ → ℚ) (input : List Row)
        (days : ℕ) (conf : ℚ),
      store sym = store' sym →
      (lstmPredict sym tf st store net rs noise input days conf).2 =
        (lstmPredict sym tf st' store' net rs noise input days conf).2) ∧
    (∀ (mn sym : String) (st st' : Option ScalerFit) (p : SimpleMLParams)
        (input : List Row) (days : ℕ) (conf : ℚ),
      (simpleMLPredict mn sym st p input days conf).2 =
        (simpleMLPredict mn sym st' p input days conf).2) := by
  refine ⟨?_, ?_, ?_, ?_⟩
  · intro sym st store net rs noise input days conf hlen hnone
    unfold lstmPredict
    rw [if_neg (show ¬ input.length < 60 + 30 from hlen)]
    simp only [Bool.true_eq_false, if_false]
    constructor
    · rw [lstmUsedPair_none store sym input net hnone]
    · rw [lstmStoreAfter_none store sym input net hnone]
      simp
  · intro sym st store net rs noise input days conf saved hlen hsome
    unfold lstmPredict
    rw [if_neg (show ¬ input.length < 60 + 30 from hlen)]
    simp only [Bool.true_eq_false, if_false]
    constructor
    · rw [lstmUsedPair_some store sym input net saved hsome]
    · exact lstmStoreAfter_some store sym input net saved hsome
  · intro sym tf st st' store store' net rs noise input days conf hstore
    unfold lstmPredict
    by_cases hlen : input.length < 60 + 30
    · rw [if_pos hlen, if_pos hlen]
    · rw [if_neg hlen, if_neg hlen]
      by_cases htf : tf = false
      · rw [if_pos htf, if_pos htf]
      · rw [if_neg htf, if_neg htf]
        exact lstmNativeResult_congr store store' sym input days conf net rs hstore
  · intro mn sym st st' p input days conf
    unfold simpleMLPredict
    by_cases hX : p.X.isEmpty
    · rw [if_pos hX, if_pos hX]
    · rw [if_neg hX, if_neg hX]

/-- Witness for `C8_amended` at concrete inputs. -/
theorem C8_amended_witness :
    (¬ c8Input.length < 90 ∧ emptyStore "AAPL" = none ∧
      (lstmPredict "AAPL" true c8Pre emptyStore c8Net 0 (fun _ => 0) c8Input 3
          (19/20)).1.1 = ⟨some (minMaxOf (closesOf c8Input)), true⟩) ∧
    (¬ c8Input.length < 90 ∧ c8Store "AAPL" = some c8Saved ∧
      (lstmPredict "AAPL" true c8Pre c8Store c8Net 0 (fun _ => 0) c8Input 3
          (19/20)).1.2 = c8Store) ∧
    (emptyStore "AAPL" = emptyStore "AAPL" ∧
      (lstmPredict "AAPL" true c8Pre emptyStore c8Net 0 (fun _ => 0) c8Input 3 (19/20)).2 =
        (lstmPredict "AAPL" true ⟨some (1, 2), true⟩ emptyStore c8Net 0 (fun _ => 0) c8Input 3
          (19/20)).2) :=
  ⟨⟨by decide, rfl,
    (C8_amended.1 "AAPL" c8Pre emptyStore c8Net 0 (fun _ => 0) c8Input 3 (19/20)
      (by decide) rfl).1⟩,
   ⟨by decide, rfl,
    (C8_amended.2.1 "AAPL" c8Pre c8Store c8Net 0 (fun _ => 0) c8Input 3 (19/20) c8Saved
      (by decide) rfl).2⟩,
   ⟨rfl,
    C8_amended.2.2.1 "AAPL" true c8Pre ⟨some (1, 2), true⟩ emptyStore emptyStore c8Net 0
      (fun _ => 0) c8Input 3 (19/20) rfl⟩⟩

/-! ## C9: determinism of the Linear Regression prediction path -/

/-- C9.  The Linear Regression (`Ridge(alpha=1.0, random_state=42)`)
prediction path is deterministic and reads no instance state: the
scaler is refit from the call's own input before any use, the feature
pipeline and the trained Ridge model are deterministic functions of the
input (fixed `random_state`), and the trend fallback uses only
close-price arithmetic.  So a second `predict` call with identical
arguments — made on the instance state the first call left behind —
returns an identical `predictions` list, and more generally the result
does not depend on the incoming instance state at all. -/
theorem C9_linear_regression_deterministic :
    ∀ (sym : String) (st0 : Option ScalerFit) (p : SimpleMLParams)
      (input : List Row) (days : ℕ) (conf : ℚ),
      ((simpleMLPredict "Linear Regression" sym
          (simpleMLPredict "Linear Regression" sym st0 p input days conf).1
          p input days conf).2.predictions =
        (simpleMLPredict "Linear Regression" sym st0 p input days conf).2.predictions) ∧
      (∀ (st st' : Option ScalerFit),
        (simpleMLPredict "Linear Regression" sym st p input days conf).2 =
          (simpleMLPredict "Linear Regression" sym st' p input days conf).2) := by
  intro sym st0 p input days conf
  have hind : ∀ (st st' : Option ScalerFit),
      (simpleMLPredict "Linear Regression" sym st p input days conf).2 =
        (simpleMLPredict "Linear Regression" sym st' p input days conf).2 := by
    intro st st'
    unfold simpleMLPredict
    by_cases hX : p.X.isEmpty
    · rw [if_pos hX, if_pos hX]
    · rw [if_neg hX, if_neg hX]
  exact ⟨congrArg ModelResult.predictions
    (hind (simpleMLPredict "Linear Regression" sym st0 p input days conf).1 st0), hind⟩

/-! ## C10: the fixed four-model registry -/

/-- C10.  The manager's registry holds exactly the four names "LSTM",
"Linear Regression", "Random Forest" and "XGBoost" (one instance each,
fixed at construction: the registry value is immutable and every
dispatch looks up the same entry), `get_available_models` returns
exactly this list, `get_all_predictions` produces exactly these keys,
and the moving-average and ARIMA predictors are not reachable through
the manager: asking for them yields the structured
`"Model {name} not available"` failure. -/
theorem C10_registry :
    ∀ (fLSTM fLR fRF fXGB : PredFn) (sym : String) (input : List Row)
      (days : ℕ) (conf : ℚ),
      getAvailableModels (mkModelManager fLSTM fLR fRF fXGB) =
        ["LSTM", "Linear Regression", "Random Forest", "XGBoost"] ∧
      (getAllPredictions (mkModelManager fLSTM fLR fRF fXGB) sym input days conf).map
          Prod.fst = ["LSTM", "Linear Regression", "Random Forest", "XGBoost"] ∧
      "Moving Average" ∉ getAvailableModels (mkModelManager fLSTM fLR fRF fXGB) ∧
      "ARIMA" ∉ getAvailableModels (mkModelManager fLSTM fLR fRF fXGB) ∧
      getSinglePrediction (mkModelManager fLSTM fLR fRF fXGB) "Moving Average" sym input
          days conf =
        failedResult sym "Moving Average" "Model Moving Average not available" ∧
      getSinglePrediction (mkModelManager fLSTM fLR fRF fXGB) "ARIMA" sym input days conf =
        failedResult sym "ARIMA" "Model ARIMA not available" := by
  intro fLSTM fLR fRF fXGB sym input days conf
  refine ⟨rfl, ?_, ?_, ?_, rfl, rfl⟩
  · rw [getAll_keys]
    rfl
  · simp [getAvailableModels, mkModelManager]
  · simp [getAvailableModels, mkModelManager]

end StockPrediction
